import Mathlib

/-!
Verification of the yellow-taxi-trips ingestion program (`src/main.py`).

The program normalizes Parquet trip files into one DuckDB table
`raw_taxi_trips`.  We embed its pure core — the `TaxiTrip` field registry,
`precompute_field_mappings`, `generate_select_statement`,
`generate_insert_statement`, `create_table_from_dataclass`,
`file_already_imported`, `get_parquet_columns`,
`bulk_insert_records_from_parquet` and the per-file loop of `main` — as
executable Lean definitions, and prove properties of ingestion against them.
The DuckDB engine itself is out of scope for the program (a library call);
where a claim needs its behaviour we model an engine oracle with the
documented semantics (an INSERT ... FROM read_parquet(f) appends one row per
source row and fails exactly when the file is unreadable).
-/

set_option maxRecDepth 4000

namespace TaxiIngest

/-- Python types occurring as `TaxiTrip` field annotations. -/
inductive PyType where
  | int
  | str
  | float
  | bool
deriving DecidableEq, Repr, BEq

/-- Python runtime values occurring as field defaults.  A float default is
carried by its decimal source literal, which is exactly what Python's
`str()` returns for it (only `0.0` occurs in the registry). -/
inductive PyVal where
  | vInt (n : Int)
  | vFloat (lit : String)
  | vStr (s : String)
  | vBool (b : Bool)
  | vNone
deriving DecidableEq, Repr

/-- One dataclass field of `TaxiTrip`: its name, annotated Python type,
`default` value and `metadata["aliases"]` list. -/
structure FieldDesc where
  name : String
  pyType : PyType
  default_value : PyVal
  aliases : List String
deriving DecidableEq, Repr

/-- The ordered fields of the `TaxiTrip` dataclass (src/main.py lines 26-55),
exactly as declared. -/
def taxiTripFields : List FieldDesc :=
  [ ⟨"vendor_id", .int, .vInt 0, ["VendorID"]⟩,
    ⟨"tpep_pickup_datetime", .str, .vNone, []⟩,
    ⟨"tpep_dropoff_datetime", .str, .vNone, []⟩,
    ⟨"passenger_count", .int, .vInt 0, []⟩,
    ⟨"trip_distance", .float, .vFloat "0.0", []⟩,
    ⟨"ratecode_id", .int, .vInt 0, ["RatecodeID"]⟩,
    ⟨"store_and_fwd_flag", .str, .vNone, []⟩,
    ⟨"pu_location_id", .int, .vInt 0, ["PULocationID"]⟩,
    ⟨"do_location_id", .int, .vInt 0, ["DOLocationID"]⟩,
    ⟨"payment_type", .int, .vInt 0, []⟩,
    ⟨"fare_amount", .float, .vFloat "0.0", []⟩,
    ⟨"extra", .float, .vFloat "0.0", []⟩,
    ⟨"mta_tax", .float, .vFloat "0.0", []⟩,
    ⟨"tip_amount", .float, .vFloat "0.0", []⟩,
    ⟨"tolls_amount", .float, .vFloat "0.0", []⟩,
    ⟨"improvement_surcharge", .float, .vFloat "0.0", []⟩,
    ⟨"total_amount", .float, .vFloat "0.0", []⟩,
    ⟨"congestion_surcharge", .float, .vFloat "0.0", []⟩,
    ⟨"airport_fee", .float, .vFloat "0.0", ["Airport_fee"]⟩ ]

/-- Python `dict` assignment `d[k] = v`: update in place if the key exists
(insertion order kept), otherwise append a new binding. -/
def dictInsert (d : List (String × String)) (k v : String) :
    List (String × String) :=
  if d.any (fun p => p.1 == k) then
    d.map (fun p => if p.1 == k then (k, v) else p)
  else d ++ [(k, v)]

/-- Python `d.get(k)`: the value bound to `k`, if any.  `dictInsert` keeps
keys unique, so the first match is the binding. -/
def dictGet (d : List (String × String)) (k : String) : Option String :=
  (d.find? (fun p => p.1 == k)).map (fun p => p.2)

/-- Loop body of `precompute_field_mappings`: bind the field name to itself,
then every alias to the field name. -/
def insertFieldDesc (d : List (String × String)) (fd : FieldDesc) :
    List (String × String) :=
  fd.aliases.foldl (fun d a => dictInsert d a fd.name)
    (dictInsert d fd.name fd.name)

/-- The mapping-construction loop of `precompute_field_mappings`
(src/main.py lines 88-105), parameterized by the descriptor list it
iterates.  It performs no duplicate validation: a repeated key is silently
overwritten by `dictInsert`. -/
def buildFieldMapping (descs : List FieldDesc) : List (String × String) :=
  descs.foldl insertFieldDesc []

/-- `precompute_field_mappings()`: the loop applied to the fields of
`TaxiTrip`. -/
def precompute_field_mappings : List (String × String) :=
  buildFieldMapping taxiTripFields

/-- The `match default_value` literal rendering in
`generate_select_statement` (src/main.py lines 144-152): truthy (non-empty)
strings are single-quoted, other strings render as `NULL`, int/float/bool
render as Python `str()` of the value, anything else (`None`) as `NULL`. -/
def renderDefault : PyVal → String
  | .vStr s => if s == "" then "NULL" else "'" ++ s ++ "'"
  | .vInt n => toString n
  | .vFloat lit => lit
  | .vBool b => if b then "True" else "False"
  | .vNone => "NULL"

/-- The characters after the last slash: helper for `basename`. -/
def lastComponent (cs : List Char) (cur : List Char) : List Char :=
  match cs with
  | [] => cur.reverse
  | c :: rest => if c = '/' then lastComponent rest [] else
      lastComponent rest (c :: cur)

/-- `os.path.basename` for slash-separated paths. -/
def basename (p : String) : String :=
  String.mk (lastComponent p.data [])

/-- One iteration of the projection loop in `generate_select_statement`
(src/main.py lines 139-161): `raw_field = field_map.get(name, name)`, then
`COALESCE(raw_field, default)` when `raw_field` is among the file's columns,
else the default literal aliased to the canonical name. -/
def fieldExpr (field_map : List (String × String))
    (parquet_columns : List String) (fd : FieldDesc) : String :=
  let raw_field := (dictGet field_map fd.name).getD fd.name
  let default_value_str := renderDefault fd.default_value
  if parquet_columns.contains raw_field then
    "COALESCE(" ++ raw_field ++ ", " ++ default_value_str ++ ")"
  else
    default_value_str ++ " AS " ++ fd.name

/-- The `select_clause` list built by `generate_select_statement`: one
expression per `TaxiTrip` field in declaration order, then the file-name
provenance expression. -/
def selectClauseList (field_map : List (String × String)) (file_path : String)
    (parquet_columns : List String) : List String :=
  taxiTripFields.map (fieldExpr field_map parquet_columns) ++
    ["'" ++ basename file_path ++ "' AS file_name"]

/-- `generate_select_statement` (src/main.py lines 136-166): the clause list
joined with `", "`. -/
def generate_select_statement (field_map : List (String × String))
    (file_path : String) (parquet_columns : List String) : String :=
  String.intercalate ", " (selectClauseList field_map file_path parquet_columns)

/-- `generate_insert_statement` (src/main.py lines 169-171). -/
def generate_insert_statement (select_clause : String) (file_path : String) :
    String :=
  "INSERT INTO raw_taxi_trips SELECT " ++ select_clause ++
    " FROM read_parquet('" ++ file_path ++ "')"

/-- `TYPE_MAPPING` (src/main.py lines 18-23). -/
def TYPE_MAPPING : List (PyType × String) :=
  [(.int, "INT"), (.str, "STRING"), (.float, "DOUBLE"), (.bool, "BOOLEAN")]

/-- `map_python_type_to_duckdb` (src/main.py lines 58-63):
`TYPE_MAPPING.get(field_type, "STRING")`. -/
def map_python_type_to_duckdb (t : PyType) : String :=
  ((TYPE_MAPPING.find? (fun p => p.1 == t)).map (fun p => p.2)).getD "STRING"

/-- The `fields_definitions` column list of `create_table_from_dataclass`
(src/main.py lines 69-75): every `TaxiTrip` field typed by
`map_python_type_to_duckdb`, then the provenance column `file_name STRING`. -/
def fields_definitions : List String :=
  taxiTripFields.map
    (fun fd => fd.name ++ " " ++ map_python_type_to_duckdb fd.pyType) ++
    ["file_name STRING"]

/-- Database state visible to this program: the `raw_taxi_trips` table's
column-definition list when the table exists, and its rows.  Only the
`file_name` provenance value of each row matters to the ledger and to row
counts, so a row is carried as that value. -/
structure DBState where
  schema : Option (List String)
  rows : List String
deriving DecidableEq, Repr

/-- `create_table_from_dataclass` (src/main.py lines 66-85): executes
`CREATE TABLE IF NOT EXISTS` with `fields_definitions` — it creates the
table when absent and leaves an existing table (schema and data) untouched,
never failing because the table exists. -/
def create_table_from_dataclass (st : DBState) : DBState :=
  match st.schema with
  | some _ => st
  | none => { st with schema := some fields_definitions }

/-- `file_already_imported` (src/main.py lines 108-125).  Its input is the
outcome of `con.execute(COUNT query).fetchone()`: an exception (`.error`),
or `None`, or a result tuple.  The code returns `result[0] > 0` for a
non-empty tuple, `False` otherwise, and on exception logs and falls off the
end — returning Python `None`, modelled as `Option.none`. -/
def file_already_imported (query_result : Except Unit (Option (List Int))) :
    Option Bool :=
  match query_result with
  | .ok (some (n :: _)) => some (decide (n > 0))
  | .ok (some []) => some false
  | .ok none => some false
  | .error _ => none

/-- Python truthiness of the value `file_already_imported` returns:
`None` is falsy, a bool is itself. -/
def pyTruthy : Option Bool → Bool
  | none => false
  | some b => b

/-- The ledger query
`SELECT COUNT(*) FROM raw_taxi_trips WHERE file_name = ?` on a provisioned
table: succeeds with the one-element tuple holding the count of rows whose
provenance equals the file name. -/
def ledger_query (rows : List String) (file_name : String) :
    Except Unit (Option (List Int)) :=
  .ok (some [((rows.filter (fun r => r == file_name)).length : Int)])

/-- A source Parquet file as the program observes it: its name (relative to
the data directory), the outcome of reading its column list, and its row
count.  An unreadable/corrupt file has `readResult = .error e`. -/
structure SourceFile where
  name : String
  readResult : Except String (List String)
  numRows : Nat
deriving Repr

/-- `get_parquet_columns` (src/main.py lines 127-134): the columns on
success; on any exception it logs and returns the empty list — it never
raises. -/
def get_parquet_columns (readResult : Except String (List String)) :
    List String :=
  match readResult with
  | .ok cols => cols
  | .error _ => []

/-- The single INSERT statement `bulk_insert_records_from_parquet` hands to
`con.execute` for a file: built from the (possibly empty) discovered column
list.  The body reaches this `execute` unconditionally, because
`get_parquet_columns` never raises. -/
def bulk_insert_statement (f : SourceFile) : String :=
  generate_insert_statement
    (generate_select_statement precompute_field_mappings ("data/" ++ f.name)
      (get_parquet_columns f.readResult))
    ("data/" ++ f.name)

/-- The list of SQL statements `bulk_insert_records_from_parquet`
(src/main.py lines 174-191) passes to `con.execute`: always exactly the one
INSERT statement, whatever the discovery outcome. -/
def bulk_insert_attempted_sql (f : SourceFile) : List String :=
  [bulk_insert_statement f]

/-- The engine executing `INSERT INTO raw_taxi_trips SELECT ... FROM
read_parquet(f)`: appends one row (tagged with the file's basename, i.e.
`f.name`) per source row, and fails exactly when the file cannot be read.
The external engine's documented semantics; the statement text itself does
not influence which rows a given file contributes. -/
def engine_exec_insert (f : SourceFile) (rows : List String) :
    Except String (List String) :=
  match f.readResult with
  | .ok _ => .ok (rows ++ List.replicate f.numRows f.name)
  | .error e => .error e

/-- `bulk_insert_records_from_parquet` (src/main.py lines 174-191): discover
columns, build the INSERT, execute it; any exception is caught and logged,
leaving the table as it was. -/
def bulk_insert_records_from_parquet (f : SourceFile) (rows : List String) :
    List String :=
  match engine_exec_insert f rows with
  | .ok newRows => newRows
  | .error _ => rows

/-- One iteration of the per-file loop in `main` (src/main.py lines
223-229) on a provisioned table: `if not file_already_imported(...)` then
bulk insert, else skip. -/
def process_file (rows : List String) (f : SourceFile) : List String :=
  if pyTruthy (file_already_imported (ledger_query rows f.name)) then rows
  else bulk_insert_records_from_parquet f rows

/-- The whole per-file loop of `main` over the scanned files. -/
def main_loop (rows : List String) (files : List SourceFile) : List String :=
  files.foldl process_file rows

end TaxiIngest

namespace TaxiIngest

/- Helper lemmas shared by the ingestion-loop proofs. -/

lemma bulk_insert_error (f : SourceFile) (e : String)
    (h : f.readResult = .error e) (rows : List String) :
    bulk_insert_records_from_parquet f rows = rows := by
  simp [bulk_insert_records_from_parquet, engine_exec_insert, h]

lemma bulk_insert_ok (f : SourceFile) (cols : List String)
    (h : f.readResult = .ok cols) (rows : List String) :
    bulk_insert_records_from_parquet f rows =
      rows ++ List.replicate f.numRows f.name := by
  simp [bulk_insert_records_from_parquet, engine_exec_insert, h]

lemma process_file_eq (rows : List String) (f : SourceFile) :
    process_file rows f =
      if 0 < (rows.filter (fun r => r == f.name)).length then rows
      else bulk_insert_records_from_parquet f rows := by
  simp [process_file, ledger_query, file_already_imported, pyTruthy,
    Int.natCast_pos]

lemma filter_append_replicate (rows : List String) (a : String) (n : Nat) :
    ((rows ++ List.replicate n a).filter (fun r => r == a)) =
      rows.filter (fun r => r == a) ++ List.replicate n a := by
  rw [List.filter_append]
  congr 1
  induction n with
  | zero => rfl
  | succ k ih => simp [List.replicate_succ, ih]

end TaxiIngest

namespace TaxiIngest

/-- C1: the projection does NOT bind a canonical field to its registered
alias column.  `generate_select_statement` looks `field_map` up by the
canonical name, which maps to itself, so for a file whose only column is the
alias `VendorID` the clause list is identical to the one for a file with no
recognized columns at all, its first expression is the constant default
`0 AS vendor_id`, and the alias binding `COALESCE(VendorID, 0)` the claim
describes never appears.  Every row therefore gets `vendor_id = 0`, not the
source values. -/
theorem C1_alias_column_not_bound :
    selectClauseList precompute_field_mappings "data/f.parquet" ["VendorID"] =
      selectClauseList precompute_field_mappings "data/f.parquet" [] ∧
    (selectClauseList precompute_field_mappings "data/f.parquet"
      ["VendorID"]).head? = some "0 AS vendor_id" ∧
    (selectClauseList precompute_field_mappings "data/f.parquet"
      ["VendorID"]).head? ≠ some "COALESCE(VendorID, 0)" := by
  refine ⟨by decide, by decide, by decide⟩

/-- C2: when the ledger count query raises, `file_already_imported` does not
raise a hard error — it logs and falls off the end, returning Python `None`,
which is falsy, so `main`'s `if not file_already_imported(...)` proceeds
to import the file.  On a successful query the count-positive half of
the claim does hold. -/
theorem C2_ledger_error_swallowed :
    file_already_imported (.error ()) = none ∧
    pyTruthy (file_already_imported (.error ())) = false ∧
    file_already_imported (.ok (some [3])) = some true ∧
    file_already_imported (.ok (some [0])) = some false := by
  refine ⟨rfl, rfl, by decide, by decide⟩

/-- C3 counterexample: `precompute_field_mappings`'s construction loop
performs no duplicate validation.  With two descriptors claiming the same
alias `x`, no error is raised; the binding is silently overwritten and `x`
ends up mapped to the later descriptor `b`. -/
theorem C3_duplicate_alias_silently_overwritten :
    dictGet (buildFieldMapping
        [⟨"a", .int, .vInt 0, ["x"]⟩, ⟨"b", .int, .vInt 0, ["x"]⟩]) "x" =
      some "b" := by
  decide

/-- C3 amended: the mapping builder is total and never raises — duplicates
would be silently overwritten — and for the actual registry, whose names and
alias sets are pairwise disjoint, the resulting table maps every canonical
name to itself and every alias to exactly its canonical name. -/
theorem C3_registry_mapping_correct :
    ∀ fd ∈ taxiTripFields,
      dictGet precompute_field_mappings fd.name = some fd.name ∧
      ∀ a ∈ fd.aliases, dictGet precompute_field_mappings a = some fd.name := by
  decide

/-- C3 witness: the amended mapping theorem evaluated on the `vendor_id`
descriptor and its alias `VendorID`. -/
theorem C3_registry_mapping_witness :
    dictGet precompute_field_mappings "vendor_id" = some "vendor_id" ∧
    dictGet precompute_field_mappings "VendorID" = some "vendor_id" :=
  ⟨(C3_registry_mapping_correct ⟨"vendor_id", .int, .vInt 0, ["VendorID"]⟩
      (by decide)).1,
   (C3_registry_mapping_correct ⟨"vendor_id", .int, .vInt 0, ["VendorID"]⟩
      (by decide)).2 "VendorID" (by decide)⟩

/-- C4: the per-file ingestion step (ledger check, then conditional bulk
load) is idempotent on a provisioned table: running it twice yields the very
same table state, and in particular the same stored row count, as running it
once. -/
theorem C4_ingest_idempotent :
    ∀ (rows : List String) (f : SourceFile),
      process_file (process_file rows f) f = process_file rows f ∧
      (process_file (process_file rows f) f).length =
        (process_file rows f).length := by
  intro rows f
  have hmain : process_file (process_file rows f) f = process_file rows f := by
    rw [process_file_eq rows f]
    by_cases h : 0 < (rows.filter (fun r => r == f.name)).length
    · rw [if_pos h, process_file_eq rows f, if_pos h]
    · rw [if_neg h]
      cases hr : f.readResult with
      | error e =>
          rw [bulk_insert_error f e hr rows, process_file_eq rows f, if_neg h,
            bulk_insert_error f e hr rows]
      | ok cols =>
          rw [bulk_insert_ok f cols hr rows, process_file_eq,
            filter_append_replicate]
          rcases Nat.eq_zero_or_pos f.numRows with hn | hn
          · rw [if_neg]
            · rw [bulk_insert_ok f cols hr, hn]
              simp
            · simp only [List.length_append, List.length_replicate, hn]
              omega
          · rw [if_pos]
            simp only [List.length_append, List.length_replicate]
            omega
  exact ⟨hmain, by rw [hmain]⟩

/-- C5: default literals are rendered by the field value exactly as the
claim states — non-empty string defaults single-quoted, the empty string and
an absent (`None`) string default as SQL `NULL`, and int, float and bool
defaults as bare (unquoted) Python `str()` literals; over the actual
registry every rendered default is `0`, `0.0` or `NULL`. -/
theorem C5_default_literal_rendering :
    (∀ s : String, s ≠ "" → renderDefault (.vStr s) = "'" ++ s ++ "'") ∧
    renderDefault (.vStr "") = "NULL" ∧
    renderDefault .vNone = "NULL" ∧
    (∀ n : Int, renderDefault (.vInt n) = toString n) ∧
    (∀ lit : String, renderDefault (.vFloat lit) = lit) ∧
    (∀ b : Bool, renderDefault (.vBool b) = if b then "True" else "False") ∧
    (∀ fd ∈ taxiTripFields,
      renderDefault fd.default_value = "0" ∨
      renderDefault fd.default_value = "0.0" ∨
      renderDefault fd.default_value = "NULL") := by
  refine ⟨?_, rfl, rfl, fun n => rfl, fun lit => rfl, fun b => rfl, by decide⟩
  intro s hs
  simp [renderDefault, hs]

/-- C5 witness: the quoting rule evaluated on the non-empty string `abc`. -/
theorem C5_default_literal_rendering_witness :
    ("abc" : String) ≠ "" ∧ renderDefault (.vStr "abc") = "'abc'" :=
  ⟨by decide, C5_default_literal_rendering.1 "abc" (by decide)⟩

end TaxiIngest

namespace TaxiIngest

/-- C6 counterexample: `get_parquet_columns` catches its own exception and
returns `[]`, so `bulk_insert_records_from_parquet` still reaches
`con.execute` — for a file whose column list could not be read, the list of
attempted INSERT statements is not empty, contradicting the claim that no
bulk load is attempted. -/
theorem C6_insert_attempted_on_discovery_error :
    ¬ (bulk_insert_attempted_sql ⟨"bad.parquet", .error "corrupt", 0⟩ = []) := by
  simp [bulk_insert_attempted_sql]

/-- C6 amended: on a discovery error the column list becomes empty, so the
generated projection is the all-defaults one; the INSERT is still attempted
but executing it against the unreadable file fails, the exception is caught
and logged, the table is left unchanged, and the run continues with the
remaining files. -/
theorem C6_discovery_error_file_skipped :
    ∀ (name e : String) (n : Nat) (rows : List String)
      (rest : List SourceFile),
      get_parquet_columns (Except.error e) = [] ∧
      generate_select_statement precompute_field_mappings ("data/" ++ name)
          (get_parquet_columns (Except.error e)) =
        generate_select_statement precompute_field_mappings ("data/" ++ name)
          [] ∧
      bulk_insert_records_from_parquet ⟨name, .error e, n⟩ rows = rows ∧
      main_loop rows (⟨name, .error e, n⟩ :: rest) = main_loop rows rest := by
  intro name e n rows rest
  have hb : bulk_insert_records_from_parquet ⟨name, .error e, n⟩ rows = rows :=
    bulk_insert_error _ e rfl rows
  refine ⟨rfl, rfl, hb, ?_⟩
  have hp : process_file rows ⟨name, .error e, n⟩ = rows := by
    rw [process_file_eq]
    split
    · rfl
    · exact hb
  simp [main_loop, hp]

/-- Provisioning leaves any state whose table already exists untouched. -/
lemma provision_preserves (st : DBState) (h : st.schema.isSome = true) :
    create_table_from_dataclass st = st := by
  obtain ⟨sch, rows⟩ := st
  cases sch with
  | some s => rfl
  | none => simp [Option.isSome] at h

/-- C7: provisioning any number of times starting from a database without
the table yields exactly the canonical columns — each typed by the
semantic-type mapping (int→INT, float→DOUBLE, str→STRING, bool→BOOLEAN) —
plus the trailing provenance column `file_name STRING`; and re-invoking
provisioning on a state whose table exists returns that state unchanged
(schema and data), never failing. -/
theorem C7_provision_schema_closure :
    (∀ n : Nat,
      ((create_table_from_dataclass)^[n + 1] ⟨none, []⟩).schema =
        some fields_definitions) ∧
    fields_definitions =
      ["vendor_id INT", "tpep_pickup_datetime STRING",
       "tpep_dropoff_datetime STRING", "passenger_count INT",
       "trip_distance DOUBLE", "ratecode_id INT", "store_and_fwd_flag STRING",
       "pu_location_id INT", "do_location_id INT", "payment_type INT",
       "fare_amount DOUBLE", "extra DOUBLE", "mta_tax DOUBLE",
       "tip_amount DOUBLE", "tolls_amount DOUBLE",
       "improvement_surcharge DOUBLE", "total_amount DOUBLE",
       "congestion_surcharge DOUBLE", "airport_fee DOUBLE",
       "file_name STRING"] ∧
    (∀ st : DBState, st.schema.isSome = true →
      create_table_from_dataclass st = st) ∧
    map_python_type_to_duckdb .int = "INT" ∧
    map_python_type_to_duckdb .float = "DOUBLE" ∧
    map_python_type_to_duckdb .str = "STRING" ∧
    map_python_type_to_duckdb .bool = "BOOLEAN" := by
  refine ⟨?_, by decide, provision_preserves, rfl, rfl, rfl, rfl⟩
  intro n
  induction n with
  | zero => rfl
  | succ k ih =>
      rw [Function.iterate_succ_apply' create_table_from_dataclass (k + 1)]
      rw [provision_preserves _ (by rw [ih]; rfl)]
      exact ih

/-- C7 witness: provisioning a state whose table already exists (with a
different shape and with data) returns it unchanged. -/
theorem C7_provision_schema_closure_witness :
    (DBState.mk (some ["x INT"]) ["a.parquet"]).schema.isSome = true ∧
    create_table_from_dataclass ⟨some ["x INT"], ["a.parquet"]⟩ =
      ⟨some ["x INT"], ["a.parquet"]⟩ :=
  ⟨rfl, C7_provision_schema_closure.2.2.1 ⟨some ["x INT"], ["a.parquet"]⟩ rfl⟩

/-- In the registry-derived mapping, every canonical name resolves to
itself, so `field_map.get(name, name)` is `name`. -/
lemma raw_field_self :
    ∀ fd ∈ taxiTripFields,
      (dictGet precompute_field_mappings fd.name).getD fd.name = fd.name := by
  decide

/-- The per-field expression ignores a column name that is no canonical
field name. -/
lemma fieldExpr_unknown_cons (c : String) (cols : List String) (fd : FieldDesc)
    (hfd : fd ∈ taxiTripFields) (hc : c ≠ fd.name) :
    fieldExpr precompute_field_mappings (c :: cols) fd =
      fieldExpr precompute_field_mappings cols fd := by
  have h1 : (dictGet precompute_field_mappings fd.name).getD fd.name =
      fd.name := raw_field_self fd hfd
  have h2 : (c :: cols).contains fd.name = cols.contains fd.name := by
    simp [List.contains_cons, beq_eq_false_iff_ne, Ne.symm hc]
  simp only [fieldExpr, h1, h2]

/-- C8: a source column matching no canonical name and no registered alias
is silently dropped — the clause list and the SELECT statement generated
with the extra column present are character-for-character those generated
without it, and no error is possible (generation is total). -/
theorem C8_unknown_column_dropped :
    ∀ (c p : String) (cols : List String),
      c ∉ taxiTripFields.map FieldDesc.name →
      (∀ fd ∈ taxiTripFields, c ∉ fd.aliases) →
      selectClauseList precompute_field_mappings p (c :: cols) =
        selectClauseList precompute_field_mappings p cols ∧
      generate_select_statement precompute_field_mappings p (c :: cols) =
        generate_select_statement precompute_field_mappings p cols := by
  intro c p cols hname _halias
  have hmap : taxiTripFields.map (fieldExpr precompute_field_mappings
      (c :: cols)) = taxiTripFields.map (fieldExpr precompute_field_mappings
      cols) := by
    apply List.map_congr_left
    intro fd hfd
    apply fieldExpr_unknown_cons c cols fd hfd
    intro hEq
    exact hname (hEq ▸ List.mem_map_of_mem FieldDesc.name hfd)
  constructor
  · unfold selectClauseList
    rw [hmap]
  · unfold generate_select_statement selectClauseList
    rw [hmap]

/-- C8 witness: the drop theorem evaluated on the unrecognized column
`weird_col` added in front of a file that also has `vendor_id`. -/
theorem C8_unknown_column_dropped_witness :
    (("weird_col" : String) ∉ taxiTripFields.map FieldDesc.name) ∧
    (∀ fd ∈ taxiTripFields, ("weird_col" : String) ∉ fd.aliases) ∧
    selectClauseList precompute_field_mappings "data/f.parquet"
        ["weird_col", "vendor_id"] =
      selectClauseList precompute_field_mappings "data/f.parquet"
        ["vendor_id"] :=
  ⟨by decide, by decide,
   (C8_unknown_column_dropped "weird_col" "data/f.parquet" ["vendor_id"]
      (by decide) (by decide)).1⟩

/-- C9: for every field map, file path and column list — the empty list
included — the clause list has exactly one expression per canonical field in
registry order, then exactly one provenance expression, and its length
equals the provisioned table's column count (20). -/
theorem C9_projection_arity_order :
    ∀ (fm : List (String × String)) (p : String) (cols : List String),
      (selectClauseList fm p cols).length = fields_definitions.length ∧
      (selectClauseList fm p cols).length = 20 ∧
      (selectClauseList fm p cols).getLast? =
        some ("'" ++ basename p ++ "' AS file_name") ∧
      ∀ i (h : i < taxiTripFields.length),
        (selectClauseList fm p cols)[i]? =
          some (fieldExpr fm cols (taxiTripFields.get ⟨i, h⟩)) := by
  intro fm p cols
  refine ⟨?_, ?_, ?_, ?_⟩
  · simp [selectClauseList, fields_definitions]
  · simp [selectClauseList]
    rfl
  · exact List.getLast?_concat _
  · intro i h
    have hlen : i < (taxiTripFields.map (fieldExpr fm cols)).length := by
      rw [List.length_map]
      exact h
    rw [selectClauseList, List.getElem?_append_left hlen, List.getElem?_map,
      List.getElem?_eq_getElem h]
    rfl

/-- C9 witness: the arity theorem evaluated on the registry mapping, a
concrete path and the empty column list, reading off expression 0. -/
theorem C9_projection_arity_order_witness :
    (selectClauseList precompute_field_mappings "data/f.parquet" [])[0]? =
      some (fieldExpr precompute_field_mappings []
        (taxiTripFields.get ⟨0, by decide⟩)) :=
  (C9_projection_arity_order precompute_field_mappings "data/f.parquet"
    []).2.2.2 0 (by decide)

/-- C10: building the field mapping and generating the projection SQL are
deterministic — the mapping builder always yields the same table, and the
SELECT generator yields character-for-character equal strings on equal
inputs (both are pure functions of their arguments). -/
theorem C10_generation_deterministic :
    precompute_field_mappings = precompute_field_mappings ∧
    buildFieldMapping taxiTripFields = buildFieldMapping taxiTripFields ∧
    ∀ (fm₁ fm₂ : List (String × String)) (p₁ p₂ : String)
      (c₁ c₂ : List String),
      fm₁ = fm₂ → p₁ = p₂ → c₁ = c₂ →
      generate_select_statement fm₁ p₁ c₁ =
        generate_select_statement fm₂ p₂ c₂ := by
  refine ⟨rfl, rfl, ?_⟩
  intro fm₁ fm₂ p₁ p₂ c₁ c₂ h1 h2 h3
  rw [h1, h2, h3]

/-- C10 witness: the determinism theorem evaluated on the registry mapping
and a concrete file. -/
theorem C10_generation_deterministic_witness :
    generate_select_statement precompute_field_mappings "data/f.parquet"
        ["VendorID"] =
      generate_select_statement precompute_field_mappings "data/f.parquet"
        ["VendorID"] :=
  C10_generation_deterministic.2.2 precompute_field_mappings
    precompute_field_mappings "data/f.parquet" "data/f.parquet" ["VendorID"]
    ["VendorID"] rfl rfl rfl

end TaxiIngest
